import Mathlib

set_option maxRecDepth 4000

/-!
# Verification of the trivia-app backend against its specification

Shallow embedding of the data model and the operations of the trivia-content
management backend (Flask + SQLAlchemy + PostgreSQL), together with theorems
settling the specification's claims about it.

Database tables are embedded as Lean lists of records; route handlers become
pure functions from a state and a request to a response and a new state.
Timestamps are integers (seconds); `timedelta(days=7)` is `604800`.
-/

namespace TriviaApp

/-! ## Answer matching (`src/trivia/main.py`, `check_answer`) -/

/-- Python's `str.lower()`: lowercase every character. -/
def pyLower (s : String) : String := ⟨s.data.map Char.toLower⟩

/-- Longest-common-subsequence length of two character lists, computed with a
structural fuel argument (the fuel `|l1| + |l2|` always suffices). This is the
classic edit-distance dual: `indelDist a b = |a| + |b| - 2·lcsLen a b`. -/
def lcsLenAux : Nat → List Char → List Char → Nat
  | 0, _, _ => 0
  | _ + 1, [], _ => 0
  | _ + 1, _ :: _, [] => 0
  | fuel + 1, a :: as, b :: bs =>
    if a = b then lcsLenAux fuel as bs + 1
    else max (lcsLenAux fuel (a :: as) bs) (lcsLenAux fuel as (b :: bs))

/-- Longest-common-subsequence length of two character lists. -/
def lcsLen (l1 l2 : List Char) : Nat := lcsLenAux (l1.length + l2.length) l1 l2

/-- Modelled from the spec: the fuzzy similarity scorer used by `check_answer`
(`fuzz.ratio` of the external fuzzywuzzy library, whose source is not part of
this repository). Per spec §4.1 it is "a similarity score on a 0–100 scale"
behaving "like a classic edit-distance-based ratio: identical strings score
100; completely disjoint strings score near 0". Modelled as the classic
edit-distance ratio `round(100 · (1 - dist/(|a|+|b|)))`, which rewrites to
`round(200 · lcsLen/(|a|+|b|))`, with identical strings scoring 100. -/
def fuzz_score (s1 s2 : String) : Nat :=
  if s1 = s2 then 100
  else (400 * lcsLen s1.data s2.data + (s1.length + s2.length)) /
    (2 * (s1.length + s2.length))

/-- A row of the `trivia_questions` table (`src/trivia/main.py`, `TriviaQuestion`). -/
structure TriviaQuestion where
  id : Nat
  question : String
  answer : String
  category_id : Nat
  difficulty : String
  air_date : Option Int := none
  original_value : Option Int := none
  original_round : Option Int := none
  notes : Option String := none
deriving Repr, DecidableEq

/-- The JSON body of a `POST /api/check-answer` request; a field is `none`
when the corresponding key is absent from the JSON object. -/
structure CheckAnswerData where
  answer : Option String
  question_id : Option Nat
deriving Repr, DecidableEq

/-- The response of `POST /api/check-answer`: an HTTP status plus the payload
fields, each `none` when the JSON response does not carry it. -/
structure CheckAnswerResponse where
  status : Nat
  correct : Option Bool := none
  score : Option Nat := none
  correct_answer : Option String := none
deriving Repr, DecidableEq

/-- `db.session.get(TriviaQuestion, question_id)`: primary-key lookup. -/
def getTriviaQuestion (qs : List TriviaQuestion) (qid : Nat) : Option TriviaQuestion :=
  qs.find? (fun q => q.id = qid)

/-- `check_answer` (`src/trivia/main.py` lines 267-294): validates that the
JSON body carries `answer` and `question_id` keys (400 otherwise), fetches the
catalog question by primary key (404 if absent), scores the lowercased
submitted answer against the lowercased stored answer, and classifies it
correct when the score is at least 80. -/
def check_answer (qs : List TriviaQuestion) (data : Option CheckAnswerData) :
    CheckAnswerResponse :=
  match data with
  | none => { status := 400 }
  | some d =>
    match d.answer, d.question_id with
    | some user_answer, some question_id =>
      match getTriviaQuestion qs question_id with
      | none => { status := 404 }
      | some q =>
        { status := 200,
          correct := some (decide (fuzz_score (pyLower user_answer) (pyLower q.answer) ≥ 80)),
          score := some (fuzz_score (pyLower user_answer) (pyLower q.answer)),
          correct_answer := some q.answer }
    | _, _ => { status := 400 }

/-! ### Lemmas about the scorer -/

theorem lcsLenAux_eq_zero_of_disjoint :
    ∀ (fuel : Nat) (l1 l2 : List Char), (∀ c ∈ l1, c ∉ l2) → lcsLenAux fuel l1 l2 = 0 := by
  intro fuel
  induction fuel with
  | zero => intro l1 l2 _; rfl
  | succ n ih =>
    intro l1 l2 h
    cases l1 with
    | nil => rfl
    | cons a as =>
      cases l2 with
      | nil => rfl
      | cons b bs =>
        have hab : a ≠ b := fun he => h a (List.mem_cons_self a as) (he ▸ List.mem_cons_self b bs)
        have h1 := ih (a :: as) bs (fun c hc hm => h c hc (List.mem_cons_of_mem b hm))
        have h2 := ih as (b :: bs) (fun c hc => h c (List.mem_cons_of_mem a hc))
        simp [lcsLenAux, hab, h1, h2]

theorem lcsLen_eq_zero_of_disjoint (l1 l2 : List Char) (h : ∀ c ∈ l1, c ∉ l2) :
    lcsLen l1 l2 = 0 :=
  lcsLenAux_eq_zero_of_disjoint _ l1 l2 h

theorem fuzz_score_eq_of_eq (s1 s2 : String) (h : s1 = s2) : fuzz_score s1 s2 = 100 := by
  simp [fuzz_score, h]

theorem fuzz_score_eq_zero_of_disjoint (s1 s2 : String)
    (hdisj : ∀ c ∈ s1.data, c ∉ s2.data)
    (hne : s1.data ≠ [] ∨ s2.data ≠ []) : fuzz_score s1 s2 = 0 := by
  have hL : lcsLen s1.data s2.data = 0 := lcsLen_eq_zero_of_disjoint _ _ hdisj
  have hs : s1 ≠ s2 := by
    intro heq
    subst heq
    have h1 : s1.data = [] := by
      cases hd : s1.data with
      | nil => rfl
      | cons c cs => exact absurd (hd ▸ List.mem_cons_self c cs) (hdisj c (hd ▸ List.mem_cons_self c cs))
    rcases hne with h | h <;> exact h h1
  have hlen : 0 < s1.length + s2.length := by
    rcases hne with h | h
    · have : 0 < s1.length := List.length_pos.mpr h
      omega
    · have : 0 < s2.length := List.length_pos.mpr h
      omega
  simp only [fuzz_score, hs, if_false]
  rw [hL]
  simp only [Nat.mul_zero, Nat.zero_add]
  exact Nat.div_eq_of_lt (by omega)

/-! ### Claims C1, C3, C4 -/

/-- **C1.** For every stored catalog question and every submitted answer string
identical to the stored answer up to letter case, `POST /api/check-answer`
returns score 100 and classifies the answer as correct. -/
theorem check_answer_case_insensitive_match
    (qs : List TriviaQuestion) (qid : Nat) (q : TriviaQuestion) (user_answer : String)
    (hq : getTriviaQuestion qs qid = some q)
    (hcase : pyLower user_answer = pyLower q.answer) :
    check_answer qs (some ⟨some user_answer, some qid⟩) =
      { status := 200, correct := some true, score := some 100,
        correct_answer := some q.answer } := by
  simp only [check_answer, hq]
  rw [fuzz_score_eq_of_eq _ _ hcase]
  rfl

/-- Witness for C1: submitting `"NAPOLEON"` for stored answer `"Napoleon"`
scores 100 and is classified correct. -/
theorem check_answer_case_insensitive_match_witness :
    check_answer [{ id := 1, question := "Q", answer := "Napoleon",
                    category_id := 1, difficulty := "easy" }]
        (some ⟨some "NAPOLEON", some 1⟩) =
      { status := 200, correct := some true, score := some 100,
        correct_answer := some "Napoleon" } :=
  check_answer_case_insensitive_match _ 1
    { id := 1, question := "Q", answer := "Napoleon", category_id := 1, difficulty := "easy" }
    "NAPOLEON" (by decide) (by decide)

/-- **C3 (counterexample).** The claim fails when both the submitted and the
stored answer are empty: the two strings share no character, yet the score is
100 and the answer is classified correct (identical strings score 100, and an
empty-string answer passes the route's key-presence validation). -/
theorem check_answer_disjoint_counterexample :
    (∀ c ∈ ("" : String).data, c ∉ ("" : String).data) ∧
    check_answer [{ id := 1, question := "Q", answer := "",
                    category_id := 1, difficulty := "easy" }]
        (some ⟨some "", some 1⟩) =
      { status := 200, correct := some true, score := some 100,
        correct_answer := some "" } :=
  ⟨by simp, by decide⟩

/-- **C3 (amended).** For every pair of submitted-answer and stored-answer
strings that share no character in common (case-insensitive) and are not both
empty, the score computed by `POST /api/check-answer` is 0 (below the
threshold 80) and the answer is classified incorrect. -/
theorem check_answer_disjoint_incorrect
    (qs : List TriviaQuestion) (qid : Nat) (q : TriviaQuestion) (user_answer : String)
    (hq : getTriviaQuestion qs qid = some q)
    (hdisj : ∀ c ∈ (pyLower user_answer).data, c ∉ (pyLower q.answer).data)
    (hne : (pyLower user_answer).data ≠ [] ∨ (pyLower q.answer).data ≠ []) :
    check_answer qs (some ⟨some user_answer, some qid⟩) =
      { status := 200, correct := some false, score := some 0,
        correct_answer := some q.answer } := by
  simp only [check_answer, hq]
  rw [fuzz_score_eq_zero_of_disjoint _ _ hdisj hne]
  rfl

/-- Witness for the amended C3: `"abc"` against stored `"XYZ"` scores 0 and is
classified incorrect. -/
theorem check_answer_disjoint_incorrect_witness :
    check_answer [{ id := 1, question := "Q", answer := "XYZ",
                    category_id := 1, difficulty := "easy" }]
        (some ⟨some "abc", some 1⟩) =
      { status := 200, correct := some false, score := some 0,
        correct_answer := some "XYZ" } :=
  check_answer_disjoint_incorrect _ 1
    { id := 1, question := "Q", answer := "XYZ", category_id := 1, difficulty := "easy" }
    "abc" (by decide) (by decide) (by decide)

/-- **C4 (counterexample).** A request whose `answer` value is the *empty
string* (with the key present) is not rejected with 400: validation only
checks key presence, so the matching function is invoked and a score is
computed. -/
theorem check_answer_empty_answer_counterexample :
    check_answer [{ id := 1, question := "Q", answer := "x",
                    category_id := 1, difficulty := "easy" }]
        (some ⟨some "", some 1⟩) =
      { status := 200, correct := some false, score := some 0,
        correct_answer := some "x" } := by
  decide

/-- **C4 (amended).** For every `POST /api/check-answer` request whose JSON
body is absent or lacks the `answer` or `question_id` key, the response is
HTTP 400 and no score is computed (the matching function is not invoked); an
answer key present with an empty-string value passes this validation and the
matching function is invoked on it. -/
theorem check_answer_missing_fields_400
    (qs : List TriviaQuestion) (data : Option CheckAnswerData)
    (h : data = none ∨ ∃ d, data = some d ∧ (d.answer = none ∨ d.question_id = none)) :
    check_answer qs data = { status := 400, correct := none, score := none,
                             correct_answer := none } := by
  rcases h with h | ⟨d, hd, h⟩
  · rw [h]; rfl
  · subst hd
    obtain ⟨a, qid⟩ := d
    simp only at h
    rcases h with h | h
    · rw [h]; cases qid <;> rfl
    · rw [h]; cases a <;> rfl

/-- Witness for the amended C4: a body with only `question_id` yields 400 with
no score field. -/
theorem check_answer_missing_fields_400_witness :
    check_answer [] (some ⟨none, some 1⟩) =
      { status := 400, correct := none, score := none, correct_answer := none } :=
  check_answer_missing_fields_400 [] (some ⟨none, some 1⟩)
    (Or.inr ⟨⟨none, some 1⟩, rfl, Or.inl rfl⟩)

/-! ## RoundQuestion and its constraints
(`src/server/models/round.py` lines 30-45, `src/trivia/main.py` lines 174-189) -/

/-- A row of the `round_questions` table. Exactly the columns declared on the
`RoundQuestion` model: the two question references are nullable foreign keys. -/
structure RoundQuestion where
  id : Nat
  round_id : Nat
  question_number : Nat
  preset_question_id : Option Nat
  user_question_id : Option Nat
  created_at : Int := 0
deriving Repr, DecidableEq

/-- The declared check constraint `ck_round_questions_question_type`:
`(preset_question_id IS NULL AND user_question_id IS NOT NULL) OR
(preset_question_id IS NOT NULL AND user_question_id IS NULL)`. -/
def ck_round_questions_question_type (rq : RoundQuestion) : Bool :=
  (rq.preset_question_id.isNone && rq.user_question_id.isSome) ||
  (rq.preset_question_id.isSome && rq.user_question_id.isNone)

/-- The declared unique constraint `uq_round_questions_round_number` on
`(round_id, question_number)`, checked against the current table contents. -/
def uq_round_questions_round_number (tbl : List RoundQuestion) (rq : RoundQuestion) : Bool :=
  tbl.all (fun r => !(r.round_id == rq.round_id && r.question_number == rq.question_number))

/-- An insert into `round_questions`, as the database engine enforces the two
constraints declared on the model: the row is appended only when the check
constraint and the unique constraint hold, and the insert is rejected
(`none`) otherwise. -/
def insert_round_question (tbl : List RoundQuestion) (rq : RoundQuestion) :
    Option (List RoundQuestion) :=
  if ck_round_questions_question_type rq && uq_round_questions_round_number tbl rq then
    some (tbl ++ [rq])
  else none

/-- The database states of `round_questions` reachable from the empty table by
accepted inserts. -/
inductive ReachableRoundQuestions : List RoundQuestion → Prop
  | empty : ReachableRoundQuestions []
  | insert {tbl tbl' : List RoundQuestion} {rq : RoundQuestion} :
      ReachableRoundQuestions tbl → insert_round_question tbl rq = some tbl' →
      ReachableRoundQuestions tbl'

theorem ck_round_questions_iff (rq : RoundQuestion) :
    ck_round_questions_question_type rq = true ↔
      (rq.preset_question_id.isSome ∧ rq.user_question_id = none) ∨
      (rq.preset_question_id = none ∧ rq.user_question_id.isSome) := by
  unfold ck_round_questions_question_type
  cases hp : rq.preset_question_id <;> cases hu : rq.user_question_id <;> simp [hp, hu]

/-- **C2.** In every reachable `round_questions` state, every row references
exactly one of the two question sources (exactly one of `preset_question_id`
and `user_question_id` is non-null), and an insert with both references set or
with neither set is rejected. -/
theorem round_question_exactly_one_source :
    (∀ tbl, ReachableRoundQuestions tbl → ∀ rq ∈ tbl,
      (rq.preset_question_id.isSome ∧ rq.user_question_id = none) ∨
      (rq.preset_question_id = none ∧ rq.user_question_id.isSome)) ∧
    (∀ tbl rq, (rq.preset_question_id.isSome ∧ rq.user_question_id.isSome) ∨
        (rq.preset_question_id = none ∧ rq.user_question_id = none) →
      insert_round_question tbl rq = none) := by
  constructor
  · intro tbl hreach
    induction hreach with
    | empty => intro rq h; exact absurd h (List.not_mem_nil rq)
    | insert hprev hins ih =>
      rename_i tbl0 tbl1 rq0
      intro rq hmem
      unfold insert_round_question at hins
      by_cases hck : (ck_round_questions_question_type rq0 &&
          uq_round_questions_round_number tbl0 rq0) = true
      · rw [if_pos hck] at hins
        obtain rfl : tbl0 ++ [rq0] = tbl1 := Option.some.inj hins
        rcases List.mem_append.mp hmem with h | h
        · exact ih rq h
        · obtain rfl : rq = rq0 := List.mem_singleton.mp h
          have hck1 : ck_round_questions_question_type rq = true := by
            simp only [Bool.and_eq_true] at hck
            exact hck.1
          exact (ck_round_questions_iff rq).mp hck1
      · rw [if_neg hck] at hins
        exact absurd hins (Option.some_ne_none tbl1).symm
  · intro tbl rq h
    have hck : ck_round_questions_question_type rq = false := by
      rcases Bool.eq_false_or_eq_true (ck_round_questions_question_type rq) with hb | hb
      · exfalso
        rcases (ck_round_questions_iff rq).mp hb with ⟨h1, h2⟩ | ⟨h1, h2⟩ <;>
          rcases h with ⟨g1, g2⟩ | ⟨g1, g2⟩ <;> simp_all
      · exact hb
    simp [insert_round_question, hck]

/-- Witness for C2: the table holding one catalog-question row is reachable
and its row has exactly one reference. -/
theorem round_question_exactly_one_source_witness :
    ((⟨1, 1, 1, some 5, none, 0⟩ : RoundQuestion).preset_question_id.isSome ∧
      (⟨1, 1, 1, some 5, none, 0⟩ : RoundQuestion).user_question_id = none) ∨
    ((⟨1, 1, 1, some 5, none, 0⟩ : RoundQuestion).preset_question_id = none ∧
      (⟨1, 1, 1, some 5, none, 0⟩ : RoundQuestion).user_question_id.isSome) :=
  have hreach : ReachableRoundQuestions [⟨1, 1, 1, some 5, none, 0⟩] :=
    ReachableRoundQuestions.insert ReachableRoundQuestions.empty
      (show insert_round_question [] ⟨1, 1, 1, some 5, none, 0⟩ =
        some [⟨1, 1, 1, some 5, none, 0⟩] by decide)
  round_question_exactly_one_source.1 _ hreach _ (List.mem_singleton.mpr rfl)

/-! ## Users, sessions and the auth guard
(`src/server/models/user.py`, `src/trivia/utils/auth.py`,
`src/server/routes/user/user_routes.py`) -/

/-- Modelled from the spec: bcrypt password hashing (`bcrypt.hashpw`, an
external library whose source is not part of this repository); the spec only
requires that a password hash is stored and checked, so hashing is modelled as
an injective tagging of the password. -/
def bcrypt_hashpw (password : String) : String := "bcrypt$" ++ password

/-- A row of the `users` table. -/
structure User where
  id : Nat
  username : String
  email : String
  password_hash : String
  created_at : Int
  last_login : Option Int := none
deriving Repr, DecidableEq

/-- `User.check_password`. -/
def check_password (u : User) (password : String) : Bool :=
  bcrypt_hashpw password == u.password_hash

/-- A row of the `user_sessions` table. -/
structure UserSession where
  id : Nat
  user_id : Nat
  session_token : String
  created_at : Int
  expires_at : Int
deriving Repr, DecidableEq

/-- The users/sessions portion of the database. -/
structure AuthState where
  users : List User
  sessions : List UserSession
  next_user_id : Nat := 1
  next_session_id : Nat := 1
deriving Repr, DecidableEq

/-- `timedelta(days=7)` in seconds. -/
def sevenDays : Int := 7 * 24 * 60 * 60

/-- `get_user_from_token` (`src/trivia/utils/auth.py` lines 11-21): an empty
token is rejected outright; otherwise the first session whose token matches
and whose `expires_at` lies strictly after the current instant is fetched and
its user returned. The guard performs no writes, so it returns the state it
was given. -/
def get_user_from_token (st : AuthState) (session_token : String) (now : Int) :
    Option User × AuthState :=
  if session_token = "" then (none, st)
  else
    match st.sessions.find? (fun s => s.session_token == session_token &&
        decide (s.expires_at > now)) with
    | none => (none, st)
    | some s => (st.users.find? (fun u => u.id == s.user_id), st)

/-- The JSON body of `POST /auth/login`; `none` marks an absent key. -/
structure LoginData where
  email : Option String
  password : Option String
deriving Repr, DecidableEq

/-- `login` (`src/server/routes/user/user_routes.py` lines 63-105): validates
the body, looks the user up by email, checks the password, then creates a
session expiring seven days from now and updates `last_login`. The generated
random token (`secrets.token_urlsafe(32)`) is passed in as `token`. Returns
(status, session token in the response, new state). -/
def login (st : AuthState) (data : Option LoginData) (token : String) (now : Int) :
    Nat × Option String × AuthState :=
  match data with
  | none => (400, none, st)
  | some d =>
    match d.email, d.password with
    | some email, some password =>
      match st.users.find? (fun u => u.email == email) with
      | none => (401, none, st)
      | some user =>
        if !check_password user password then (401, none, st)
        else
          let expires_at := now + sevenDays
          let new_session : UserSession :=
            ⟨st.next_session_id, user.id, token, now, expires_at⟩
          (200, some token,
            { st with
              users := st.users.map
                (fun u => if u.id == user.id then { u with last_login := some now } else u),
              sessions := st.sessions ++ [new_session],
              next_session_id := st.next_session_id + 1 })
    | _, _ => (400, none, st)

/-- The JSON body of `POST /auth/register`; `none` marks an absent key. -/
structure RegisterData where
  username : Option String
  email : Option String
  password : Option String
deriving Repr, DecidableEq

/-- `register` (`src/server/routes/user/user_routes.py` lines 12-59): validates
the body, rejects a duplicate username or email with 409, then performs TWO
commits: the first adds the user row, the second adds the session row and the
`last_login` update. `commit1_fails` / `commit2_fails` model a database
failure at the respective commit; on failure the current (uncommitted)
transaction is rolled back and 500 returned — changes committed earlier in
the same request stay. -/
def register (st : AuthState) (data : Option RegisterData) (token : String) (now : Int)
    (commit1_fails commit2_fails : Bool) : Nat × AuthState :=
  match data with
  | none => (400, st)
  | some d =>
    match d.username, d.email, d.password with
    | some username, some email, some password =>
      match st.users.find? (fun u => u.username == username || u.email == email) with
      | some _ => (409, st)
      | none =>
        let new_user : User := ⟨st.next_user_id, username, email,
          bcrypt_hashpw password, now, none⟩
        if commit1_fails then (500, st)
        else
          let st1 := { st with users := st.users ++ [new_user],
                               next_user_id := st.next_user_id + 1 }
          if commit2_fails then (500, st1)
          else
            let new_session : UserSession :=
              ⟨st1.next_session_id, new_user.id, token, now, now + sevenDays⟩
            (201, { st1 with
              users := st1.users.map
                (fun u => if u.id == new_user.id then { u with last_login := some now } else u),
              sessions := st1.sessions ++ [new_session],
              next_session_id := st1.next_session_id + 1 })
    | _, _, _ => (400, st)

/-! ### Claim C6: session expiry -/

theorem sevenDays_eq : sevenDays = 604800 := by norm_num [sevenDays]

/-- Guard behaviour when the sessions table is `sessions ++ [s0]` and `s0` is
the only session carrying `token`: the lookup succeeds exactly while `s0` is
unexpired, and the state (in particular the sessions table) is untouched. -/
theorem get_user_from_token_fresh (users : List User) (sessions : List UserSession)
    (nuid nsid : Nat) (token : String) (s0 : UserSession) (t : Int)
    (htok : token ≠ "") (hfresh : ∀ s ∈ sessions, s.session_token ≠ token)
    (hs0 : s0.session_token = token) :
    get_user_from_token ⟨users, sessions ++ [s0], nuid, nsid⟩ token t =
      (if s0.expires_at > t then users.find? (fun u => u.id == s0.user_id) else none,
       ⟨users, sessions ++ [s0], nuid, nsid⟩) := by
  have h1 : sessions.find?
      (fun s => s.session_token == token && decide (s.expires_at > t)) = none :=
    List.find?_eq_none.mpr (fun s hs => by simp [hfresh s hs])
  have happ : (sessions ++ [s0]).find?
      (fun s => s.session_token == token && decide (s.expires_at > t)) =
      if s0.expires_at > t then some s0 else none := by
    rw [List.find?_append, h1]
    by_cases hgt : s0.expires_at > t <;> simp [List.find?, hs0, hgt, Option.or]
  by_cases hgt : s0.expires_at > t <;>
    simp [get_user_from_token, htok, happ, hgt]

/-- **C6.** A session issued by login expires exactly 7 days (604800 s) after
issuance; the bearer-token guard succeeds at every instant strictly before the
expiry and fails at every instant at or after it; the guard never writes (the
session row survives the lookup, expired or not); and a session issued by
registration carries the same 7-day expiry. -/
theorem session_expiry_seven_days
    (st : AuthState) (email password token : String) (now : Int) (user : User)
    (hfind : st.users.find? (fun u => u.email == email) = some user)
    (hpw : check_password user password = true)
    (htok : token ≠ "")
    (hfresh : ∀ s ∈ st.sessions, s.session_token ≠ token) :
    (login st (some ⟨some email, some password⟩) token now).1 = 200 ∧
    (login st (some ⟨some email, some password⟩) token now).2.1 = some token ∧
    (∃ s ∈ (login st (some ⟨some email, some password⟩) token now).2.2.sessions,
      s.session_token = token ∧ s.expires_at = now + 604800) ∧
    (∀ t : Int, t < now + 604800 →
      (get_user_from_token (login st (some ⟨some email, some password⟩) token now).2.2
        token t).1.isSome) ∧
    (∀ t : Int, now + 604800 ≤ t →
      (get_user_from_token (login st (some ⟨some email, some password⟩) token now).2.2
        token t).1 = none) ∧
    (∀ t : Int,
      (get_user_from_token (login st (some ⟨some email, some password⟩) token now).2.2
        token t).2 =
      (login st (some ⟨some email, some password⟩) token now).2.2) ∧
    (∀ (st2 : AuthState) (un em pw tok2 : String) (now2 : Int),
      st2.users.find? (fun u => u.username == un || u.email == em) = none →
      ∀ s ∈ (register st2 (some ⟨some un, some em, some pw⟩) tok2 now2 false false).2.sessions,
        s ∉ st2.sessions → s.expires_at = now2 + 604800) := by
  have hsev : now + sevenDays = now + 604800 := by rw [sevenDays_eq]
  have hlogin : login st (some ⟨some email, some password⟩) token now =
      (200, some token,
        ⟨st.users.map
            (fun u => if u.id == user.id then { u with last_login := some now } else u),
          st.sessions ++ [(⟨st.next_session_id, user.id, token, now, now + sevenDays⟩ :
            UserSession)],
          st.next_user_id, st.next_session_id + 1⟩) := by
    simp [login, hfind, hpw]
  rw [hlogin]
  have hgu : ∀ t : Int, get_user_from_token
      ⟨st.users.map
          (fun u => if u.id == user.id then { u with last_login := some now } else u),
        st.sessions ++ [(⟨st.next_session_id, user.id, token, now, now + sevenDays⟩ :
          UserSession)],
        st.next_user_id, st.next_session_id + 1⟩ token t =
      (if now + sevenDays > t then
        (st.users.map
          (fun u => if u.id == user.id then { u with last_login := some now } else u)).find?
          (fun u => u.id == user.id) else none,
       ⟨st.users.map
          (fun u => if u.id == user.id then { u with last_login := some now } else u),
        st.sessions ++ [(⟨st.next_session_id, user.id, token, now, now + sevenDays⟩ :
          UserSession)],
        st.next_user_id, st.next_session_id + 1⟩) :=
    fun t => get_user_from_token_fresh _ _ _ _ token
      ⟨st.next_session_id, user.id, token, now, now + sevenDays⟩ t htok hfresh rfl
  refine ⟨rfl, rfl, ?_, ?_, ?_, ?_, ?_⟩
  · exact ⟨⟨st.next_session_id, user.id, token, now, now + sevenDays⟩,
      List.mem_append_right _ (List.mem_singleton.mpr rfl), rfl, hsev ▸ rfl⟩
  · intro t ht
    have hmem : user ∈ st.users := List.mem_of_find?_eq_some hfind
    rw [hgu t, if_pos (by omega : now + sevenDays > t)]
    refine List.find?_isSome.mpr
      ⟨(fun u => if u.id == user.id then { u with last_login := some now } else u) user,
        List.mem_map_of_mem _ hmem, ?_⟩
    simp
  · intro t ht
    rw [hgu t, if_neg (by omega : ¬ now + sevenDays > t)]
  · intro t
    rw [hgu t]
  · intro st2 un em pw tok2 now2 hdup s hs hnot
    simp only [register, hdup, Bool.false_eq_true, if_false] at hs
    rcases List.mem_append.mp hs with h | h
    · exact absurd h hnot
    · rw [List.mem_singleton.mp h, sevenDays_eq]

/-- Witness for C6: with one registered user, logging in at instant 0 returns
200, the guard accepts the token 6 days (518400 s) later, and rejects it
8 days (691200 s) later. -/
theorem session_expiry_seven_days_witness :
    (login ⟨[⟨1, "ann", "a@x.com", bcrypt_hashpw "pw", 0, none⟩], [], 2, 1⟩
      (some ⟨some "a@x.com", some "pw"⟩) "tok" 0).1 = 200 ∧
    (get_user_from_token
      (login ⟨[⟨1, "ann", "a@x.com", bcrypt_hashpw "pw", 0, none⟩], [], 2, 1⟩
        (some ⟨some "a@x.com", some "pw"⟩) "tok" 0).2.2 "tok" 518400).1.isSome ∧
    (get_user_from_token
      (login ⟨[⟨1, "ann", "a@x.com", bcrypt_hashpw "pw", 0, none⟩], [], 2, 1⟩
        (some ⟨some "a@x.com", some "pw"⟩) "tok" 0).2.2 "tok" 691200).1 = none := by
  obtain ⟨h1, _, _, h4, h5, _, _⟩ := session_expiry_seven_days
    ⟨[⟨1, "ann", "a@x.com", bcrypt_hashpw "pw", 0, none⟩], [], 2, 1⟩
    "a@x.com" "pw" "tok" 0 ⟨1, "ann", "a@x.com", bcrypt_hashpw "pw", 0, none⟩
    (by decide) (by decide) (by decide) (by simp)
  exact ⟨h1, h4 518400 (by norm_num), h5 691200 (by norm_num)⟩

/-! ### Claim C8: request atomicity -/

/-- **C8 (counterexample).** `POST /auth/register` performs two commits; when
the second commit (session creation) fails, the user row committed by the
first commit remains in the database while no session row exists — a partial
commit survives a failed request, so the request is not atomic. -/
theorem register_partial_commit_counterexample :
    (register ⟨[], [], 1, 1⟩ (some ⟨some "ann", some "a@x.com", some "pw"⟩)
      "tok" 0 false true).1 = 500 ∧
    (register ⟨[], [], 1, 1⟩ (some ⟨some "ann", some "a@x.com", some "pw"⟩)
      "tok" 0 false true).2.users =
      [⟨1, "ann", "a@x.com", bcrypt_hashpw "pw", 0, none⟩] ∧
    (register ⟨[], [], 1, 1⟩ (some ⟨some "ann", some "a@x.com", some "pw"⟩)
      "tok" 0 false true).2.sessions = [] := by
  refine ⟨rfl, ?_, rfl⟩
  decide

/-- **C8 (amended).** Each single commit is atomic: a failure at the first
commit of `POST /auth/register` rolls the whole request back (500, state
unchanged). But the route performs two commits, so a failure at the second
leaves the user row from the already-committed first transaction in place
with no session row; only when both commits succeed are the user and session
rows both committed (201). -/
theorem register_commit_atomicity
    (st : AuthState) (username email password token : String) (now : Int)
    (hdup : st.users.find? (fun u => u.username == username || u.email == email) = none) :
    (∀ b : Bool, register st (some ⟨some username, some email, some password⟩)
      token now true b = (500, st)) ∧
    (register st (some ⟨some username, some email, some password⟩) token now false true =
      (500, { st with
        users := st.users ++ [⟨st.next_user_id, username, email,
          bcrypt_hashpw password, now, none⟩],
        next_user_id := st.next_user_id + 1 })) ∧
    ((register st (some ⟨some username, some email, some password⟩)
        token now false false).1 = 201 ∧
      ∃ s ∈ (register st (some ⟨some username, some email, some password⟩)
          token now false false).2.sessions,
        s.session_token = token ∧ s.user_id = st.next_user_id) := by
  refine ⟨fun b => by simp [register, hdup], by simp [register, hdup], by simp [register, hdup], ?_⟩
  simp only [register, hdup, if_neg (Bool.false_ne_true), Bool.false_eq_true]
  exact ⟨⟨st.next_session_id, st.next_user_id, token, now, now + sevenDays⟩,
    List.mem_append_right _ (List.mem_singleton.mpr rfl), rfl, rfl⟩

/-- Witness for the amended C8: on the empty database, a first-commit failure
leaves the state unchanged. -/
theorem register_commit_atomicity_witness :
    register ⟨[], [], 1, 1⟩ (some ⟨some "ann", some "a@x.com", some "pw"⟩)
      "tok" 0 true false = (500, ⟨[], [], 1, 1⟩) :=
  (register_commit_atomicity ⟨[], [], 1, 1⟩ "ann" "a@x.com" "pw" "tok" 0 (by decide)).1 false

/-! ## Events and rounds
(`src/server/routes/event/event_routes.py`, `src/server/routes/round/round_routes.py`,
`src/server/models/round.py`) -/

/-- A row of the `events` table. -/
structure Event where
  id : Nat
  name : String
  user_id : Nat
  event_date : Option Int := none
  created_at : Int := 0
  status : String := "draft"
  description : Option String := none
  is_deleted : Bool := false
deriving Repr, DecidableEq

/-- A row of the `rounds` table (`src/server/models/round.py` lines 7-17). -/
structure Round where
  id : Nat
  event_id : Nat
  category_id : Option Nat := none
  round_number : Int
  name : Option String := none
  created_at : Int := 0
  is_deleted : Bool := false
deriving Repr, DecidableEq

/-- The events/rounds portion of the database. -/
structure EventsState where
  events : List Event
  rounds : List Round
  next_event_id : Nat := 1
  next_round_id : Nat := 1
deriving Repr, DecidableEq

/-- `select(func.max(Round.round_number)).filter_by(event_id=...)`: SQL `MAX`
over the rounds of one event, `NULL` (`none`) when the event has no rounds. -/
def max_round_number : List Round → Nat → Option Int
  | [], _ => none
  | r :: rs, eid =>
    if r.event_id == eid then
      some (match max_round_number rs eid with
            | none => r.round_number
            | some m => max r.round_number m)
    else max_round_number rs eid

/-- Python's `x or 0` on an optional integer (`None` and `0` are falsy). -/
def pyOrZero : Option Int → Int
  | none => 0
  | some v => if v = 0 then 0 else v

/-- The round row built by `create_round` for a given state: fresh id, the
requested event, no category, round number `(max or 0) + 1`, default name. -/
def mkNewRound (st : EventsState) (event_id : Nat) (now : Int) : Round :=
  ⟨st.next_round_id, event_id, none,
    pyOrZero (max_round_number st.rounds event_id) + 1,
    some ("Round " ++ toString (pyOrZero (max_round_number st.rounds event_id) + 1)),
    now, false⟩

/-- The state after `create_round` inserts its new row. -/
def afterCreateRound (st : EventsState) (event_id : Nat) (now : Int) : EventsState :=
  { st with rounds := st.rounds ++ [mkNewRound st event_id now],
            next_round_id := st.next_round_id + 1 }

/-- `create_round` (`src/server/routes/round/round_routes.py` lines 124-179):
400 without an `event_id` key, 404 when the event does not exist, 403 when it
is not owned by the caller; otherwise inserts a round numbered
`(max existing round_number or 0) + 1`. The request body is `some (some eid)`
when present with an `event_id` key. Returns (status, created round, state). -/
def create_round (st : EventsState) (uid : Nat) (data : Option (Option Nat)) (now : Int) :
    Nat × Option Round × EventsState :=
  match data with
  | none => (400, none, st)
  | some none => (400, none, st)
  | some (some event_id) =>
    match st.events.find? (fun e => e.id == event_id && e.user_id == uid) with
    | none =>
      match st.events.find? (fun e => e.id == event_id) with
      | none => (404, none, st)
      | some _ => (403, none, st)
    | some _ =>
      (201, some (mkNewRound st event_id now), afterCreateRound st event_id now)

/-- `event.is_deleted = True` applied to the row with the given id. -/
def markEventDeleted (event_id : Nat) (e2 : Event) : Event :=
  if e2.id == event_id then { e2 with is_deleted := true } else e2

/-- `round.is_deleted = True` applied to the row with the given id. -/
def markRoundDeleted (round_id : Nat) (r2 : Round) : Round :=
  if r2.id == round_id then { r2 with is_deleted := true } else r2

/-- `delete_event` (`src/server/routes/event/event_routes.py` lines 203-224):
soft delete — sets `is_deleted` to true on the event and commits; nothing
else is touched. -/
def delete_event (st : EventsState) (uid : Nat) (event_id : Nat) : Nat × EventsState :=
  match st.events.find? (fun e => e.id == event_id) with
  | none => (404, st)
  | some e =>
    if e.user_id != uid then (403, st)
    else (200, { st with events := st.events.map (markEventDeleted event_id) })

/-- `delete_round` (`src/server/routes/round/round_routes.py` lines 182-205):
soft delete of a round, authorized through the owning event (a missing owning
event would raise inside the handler and surface as 500). -/
def delete_round (st : EventsState) (uid : Nat) (round_id : Nat) : Nat × EventsState :=
  match st.rounds.find? (fun r => r.id == round_id) with
  | none => (404, st)
  | some r =>
    match st.events.find? (fun e => e.id == r.event_id) with
    | none => (500, st)
    | some e =>
      if e.user_id != uid then (403, st)
      else (200, { st with rounds := st.rounds.map (markRoundDeleted round_id) })

/-- `get_my_events` (`src/server/routes/event/event_routes.py` lines 12-46):
the rows selected for the caller — `user_id` matches, `is_deleted` is false,
optional status filter. (The `created_at` descending ordering is a
presentation concern and is not modelled.) -/
def get_my_events (st : EventsState) (uid : Nat) (status_filter : Option String) :
    List Event :=
  let base := st.events.filter (fun e => e.user_id == uid && e.is_deleted == false)
  match status_filter with
  | none => base
  | some s => base.filter (fun e => e.status == s)

/-- `get_round` (`src/server/routes/round/round_routes.py` lines 11-69):
fetches the round by primary key (404 when absent), authorizes through the
owning event's `user_id` (500 when the join finds no owner, 403 when not the
caller), and returns the round row — with NO `is_deleted` filter anywhere.
(The questions list built from the normalized view is not modelled; the claim
concerns the round row itself.) -/
def get_round (st : EventsState) (uid : Nat) (round_id : Nat) : Nat × Option Round :=
  match st.rounds.find? (fun r => r.id == round_id) with
  | none => (404, none)
  | some r =>
    match st.events.find? (fun e => e.id == r.event_id) with
    | none => (500, none)
    | some e =>
      if e.user_id != uid then (403, none)
      else (200, st.rounds.find? (fun r2 => r2.id == round_id))

/-- The JSON body of `POST /api/events`; an outer `none` marks an absent key.
For `description` and `event_date` an explicit JSON `null` is meaningful
(clears the field), hence the nested option. Dates are modelled as
already-parsed instants (`fromisoformat` parsing is not modelled; an invalid
date string is rejected with 400 before any state change). -/
structure EventUpsertData where
  id : Option Nat := none
  name : Option String := none
  description : Option (Option String) := none
  status : Option String := none
  event_date : Option (Option Int) := none
deriving Repr, DecidableEq

/-- Python truthiness of `data.get('id')` (absent/`None`/`0` are falsy). -/
def pyTruthyNat : Option Nat → Bool
  | none => false
  | some n => n != 0

/-- Python truthiness of `data.get('name')` (absent/`None`/`""` are falsy;
a JSON `null` name is modelled as `some ""`). -/
def pyTruthyStr : Option String → Bool
  | none => false
  | some s => s != ""

/-- The field updates `setattr(event, key, value)` applied for exactly the
keys present in the request (`event_data` is built only from present keys). -/
def applyEventUpdates (d : EventUpsertData) (e : Event) : Event :=
  { e with
    name := match d.name with | some nm => nm | none => e.name,
    description := match d.description with | some v => v | none => e.description,
    status := match d.status with | some v => v | none => e.status,
    event_date := match d.event_date with | some v => v | none => e.event_date }

/-- Commit of an ORM update: the row with the given id is replaced, all other
rows are untouched. -/
def replaceEventRow (eid : Nat) (e' : Event) (e2 : Event) : Event :=
  if e2.id == eid then e' else e2

/-- `create_or_update_event` (`src/server/routes/event/event_routes.py` lines
48-139): validates the name, then either updates the caller's existing event
— overwriting exactly the updatable fields whose keys are present in the
request — or inserts a new event with `status` defaulting to `'draft'` and
the caller as owner. -/
def create_or_update_event (st : EventsState) (uid : Nat) (data : Option EventUpsertData)
    (now : Int) : Nat × EventsState :=
  match data with
  | none => (400, st)
  | some d =>
    if !pyTruthyNat d.id && !pyTruthyStr d.name then (400, st)
    else if pyTruthyNat d.id && d.name.isSome && !pyTruthyStr d.name then (400, st)
    else if pyTruthyNat d.id then
      match st.events.find? (fun e => e.id == d.id.getD 0) with
      | none => (404, st)
      | some e =>
        if e.user_id != uid then (403, st)
        else
          (200,
            { st with events := st.events.map (replaceEventRow e.id (applyEventUpdates d e)) })
    else
      match d.name with
      | none => (400, st)
      | some nm =>
        let new_event : Event :=
          ⟨st.next_event_id, nm, uid,
            (match d.event_date with | some v => v | none => none), now,
            (match d.status with | some v => v | none => "draft"),
            (match d.description with | some v => v | none => none), false⟩
        (201, { st with events := st.events ++ [new_event],
                        next_event_id := st.next_event_id + 1 })

/-! ### Lemmas about round numbering -/

/-- Combination of two SQL `MAX` aggregates (`NULL` absorbs). -/
def omax : Option Int → Option Int → Option Int
  | none, b => b
  | some a, none => some a
  | some a, some b => some (max a b)

theorem max_round_number_append (l1 l2 : List Round) (eid : Nat) :
    max_round_number (l1 ++ l2) eid =
      omax (max_round_number l1 eid) (max_round_number l2 eid) := by
  induction l1 with
  | nil => rfl
  | cons r rs ih =>
    simp only [List.cons_append, List.append_eq, max_round_number]
    by_cases hr : r.event_id == eid
    · rw [if_pos hr, if_pos hr, ih]
      cases h1 : max_round_number rs eid <;> cases h2 : max_round_number l2 eid <;>
        simp [omax, max_assoc]
    · rw [if_neg hr, if_neg hr, ih]

theorem max_round_number_singleton (r : Round) (eid : Nat) (h : r.event_id = eid) :
    max_round_number [r] eid = some r.round_number := by
  simp [max_round_number, h]

theorem le_max_round_number (rs : List Round) (eid : Nat) (r : Round)
    (hmem : r ∈ rs) (heid : r.event_id = eid) :
    ∃ m, max_round_number rs eid = some m ∧ r.round_number ≤ m := by
  induction rs with
  | nil => cases hmem
  | cons r0 rs ih =>
    rcases List.mem_cons.mp hmem with rfl | hmem2
    · cases h : max_round_number rs eid with
      | none => exact ⟨r.round_number, by simp [max_round_number, heid, h], le_refl _⟩
      | some m =>
        exact ⟨max r.round_number m, by simp [max_round_number, heid, h], le_max_left _ _⟩
    · obtain ⟨m, hm, hle⟩ := ih hmem2
      by_cases h0 : r0.event_id == eid
      · exact ⟨max r0.round_number m, by simp [max_round_number, h0, hm],
          le_trans hle (le_max_right _ _)⟩
      · exact ⟨m, by simp [max_round_number, h0, hm], hle⟩

theorem pyOrZero_eq_getD (o : Option Int) : pyOrZero o = o.getD 0 := by
  cases o with
  | none => rfl
  | some v => by_cases hv : v = 0 <;> simp [pyOrZero, hv]

/-- Round numbers are unique per event: no two distinct positions in the table
share an (event, round_number) pair (the declared `uq_rounds_event_round`). -/
def round_numbers_unique (rs : List Round) : Prop :=
  rs.Pairwise (fun a b => a.event_id = b.event_id → a.round_number ≠ b.round_number)

theorem create_round_success (st : EventsState) (uid event_id : Nat) (now : Int) (e : Event)
    (hfound : st.events.find? (fun e2 => e2.id == event_id && e2.user_id == uid) = some e) :
    create_round st uid (some (some event_id)) now =
      (201, some (mkNewRound st event_id now), afterCreateRound st event_id now) := by
  simp [create_round, hfound]

/-! ### Claim C5: round numbering -/

/-- **C5.** A successful `POST /rounds` assigns the new round the maximum
stored `round_number` of the event plus one (1 when the event has no rounds);
round-number uniqueness per event is preserved; and three successive creations
on a fresh event yield round numbers 1, 2, 3. -/
theorem create_round_numbering
    (st : EventsState) (uid event_id : Nat) (now : Int) (e : Event)
    (hfound : st.events.find? (fun e2 => e2.id == event_id && e2.user_id == uid) = some e) :
    (create_round st uid (some (some event_id)) now).1 = 201 ∧
    (∃ r, (create_round st uid (some (some event_id)) now).2.1 = some r ∧
      r.event_id = event_id ∧
      r.round_number = (max_round_number st.rounds event_id).getD 0 + 1 ∧
      (max_round_number st.rounds event_id = none → r.round_number = 1) ∧
      (create_round st uid (some (some event_id)) now).2.2.rounds = st.rounds ++ [r]) ∧
    (round_numbers_unique st.rounds →
      round_numbers_unique (create_round st uid (some (some event_id)) now).2.2.rounds) ∧
    (max_round_number st.rounds event_id = none →
      ∃ r1 r2 r3,
        (create_round st uid (some (some event_id)) now).2.1 = some r1 ∧
        (create_round (create_round st uid (some (some event_id)) now).2.2
          uid (some (some event_id)) now).2.1 = some r2 ∧
        (create_round (create_round (create_round st uid (some (some event_id)) now).2.2
          uid (some (some event_id)) now).2.2 uid (some (some event_id)) now).2.1 = some r3 ∧
        r1.round_number = 1 ∧ r2.round_number = 2 ∧ r3.round_number = 3) := by
  have hcr := create_round_success st uid event_id now e hfound
  have hnum : (mkNewRound st event_id now).round_number =
      (max_round_number st.rounds event_id).getD 0 + 1 := by
    show pyOrZero (max_round_number st.rounds event_id) + 1 = _
    rw [pyOrZero_eq_getD]
  refine ⟨by rw [hcr], ⟨mkNewRound st event_id now, by rw [hcr], rfl, hnum, ?_, by rw [hcr]; rfl⟩,
    ?_, ?_⟩
  · intro hnone
    rw [hnum, hnone]
    rfl
  · intro huniq
    rw [hcr]
    show round_numbers_unique (st.rounds ++ [mkNewRound st event_id now])
    refine List.pairwise_append.mpr ⟨huniq, List.pairwise_singleton _ _, ?_⟩
    intro a ha b hb
    rw [List.mem_singleton.mp hb]
    intro heq
    obtain ⟨m, hm, hle⟩ := le_max_round_number st.rounds event_id a ha heq
    rw [hnum, hm]
    simp only [Option.getD_some]
    omega
  · intro hnone
    have hf1 : (afterCreateRound st event_id now).events.find?
        (fun e2 => e2.id == event_id && e2.user_id == uid) = some e := hfound
    have hcr1 := create_round_success (afterCreateRound st event_id now) uid event_id now e hf1
    have hnum1 : (mkNewRound st event_id now).round_number = 1 := by
      show pyOrZero (max_round_number st.rounds event_id) + 1 = 1
      rw [hnone]
      rfl
    have hmax1 : max_round_number (afterCreateRound st event_id now).rounds event_id =
        some 1 := by
      show max_round_number (st.rounds ++ [mkNewRound st event_id now]) event_id = some 1
      rw [max_round_number_append, hnone,
        max_round_number_singleton (mkNewRound st event_id now) event_id rfl, hnum1]
      rfl
    have hnum2 : (mkNewRound (afterCreateRound st event_id now) event_id now).round_number
        = 2 := by
      show pyOrZero (max_round_number (afterCreateRound st event_id now).rounds event_id) + 1 = 2
      rw [hmax1]
      rfl
    have hf2 : (afterCreateRound (afterCreateRound st event_id now) event_id now).events.find?
        (fun e2 => e2.id == event_id && e2.user_id == uid) = some e := hfound
    have hcr2 := create_round_success
      (afterCreateRound (afterCreateRound st event_id now) event_id now) uid event_id now e hf2
    have hmax2 : max_round_number
        (afterCreateRound (afterCreateRound st event_id now) event_id now).rounds event_id =
        some 2 := by
      show max_round_number ((afterCreateRound st event_id now).rounds ++
        [mkNewRound (afterCreateRound st event_id now) event_id now]) event_id = some 2
      rw [max_round_number_append, hmax1,
        max_round_number_singleton (mkNewRound (afterCreateRound st event_id now) event_id now)
          event_id rfl, hnum2]
      rfl
    have hnum3 : (mkNewRound (afterCreateRound (afterCreateRound st event_id now) event_id now)
        event_id now).round_number = 3 := by
      show pyOrZero (max_round_number
        (afterCreateRound (afterCreateRound st event_id now) event_id now).rounds event_id)
        + 1 = 3
      rw [hmax2]
      rfl
    refine ⟨mkNewRound st event_id now,
      mkNewRound (afterCreateRound st event_id now) event_id now,
      mkNewRound (afterCreateRound (afterCreateRound st event_id now) event_id now) event_id now,
      by rw [hcr], by rw [hcr, hcr1], by rw [hcr, hcr1, hcr2], hnum1, hnum2, hnum3⟩

/-- Witness for C5: on a one-event database with no rounds, `POST /rounds`
succeeds with 201. -/
theorem create_round_numbering_witness :
    (create_round ⟨[⟨1, "E", 7, none, 0, "draft", none, false⟩], [], 2, 1⟩
      7 (some (some 1)) 0).1 = 201 :=
  (create_round_numbering ⟨[⟨1, "E", 7, none, 0, "draft", none, false⟩], [], 2, 1⟩
    7 1 0 ⟨1, "E", 7, none, 0, "draft", none, false⟩ (by decide)).1

/-! ### Claim C7: soft deletion -/

theorem find?_map_of_id_preserved (l : List Round) (rid : Nat) (f : Round → Round)
    (hid : ∀ r, (f r).id = r.id) :
    (l.map f).find? (fun r2 => r2.id == rid) =
      (l.find? (fun r2 => r2.id == rid)).map f := by
  induction l with
  | nil => rfl
  | cons a l ih =>
    have hfa : ((f a).id == rid) = (a.id == rid) := by rw [hid]
    cases h : (a.id == rid) <;>
      simp [List.find?_cons, hfa, h, ih]

/-- **C7 (counterexample).** `GET /rounds/{id}` applies no `is_deleted`
filter: on a state holding a soft-deleted round owned by the caller, the
route returns 200 with that round — a soft-deleted round IS still returned,
contradicting the claim. -/
theorem get_round_soft_deleted_counterexample :
    get_round ⟨[⟨1, "E", 7, none, 0, "draft", none, false⟩],
               [⟨1, 1, none, 1, some "Round 1", 0, true⟩], 2, 2⟩ 7 1 =
      (200, some ⟨1, 1, none, 1, some "Round 1", 0, true⟩) ∧
    (⟨1, 1, none, 1, some "Round 1", 0, true⟩ : Round).is_deleted = true := by
  refine ⟨?_, rfl⟩
  decide

/-- **C7 (amended).** Soft-deleting an event or round sets only the
`is_deleted` flag — the row persists with all other fields unchanged and
nothing else in storage is touched — and a soft-deleted event no longer
appears in `GET /api/events/my`; however `GET /rounds/{id}` applies no
`is_deleted` filter, so it still returns a soft-deleted round with 200. -/
theorem soft_delete_behavior
    (st : EventsState) (uid event_id round_id : Nat) (e er : Event) (r : Round)
    (hev : st.events.find? (fun e2 => e2.id == event_id) = some e)
    (heown : e.user_id = uid)
    (hr : st.rounds.find? (fun r2 => r2.id == round_id) = some r)
    (her : st.events.find? (fun e2 => e2.id == r.event_id) = some er)
    (herown : er.user_id = uid) :
    ((delete_event st uid event_id).1 = 200 ∧
      (delete_event st uid event_id).2.events =
        st.events.map (markEventDeleted event_id) ∧
      (delete_event st uid event_id).2.rounds = st.rounds ∧
      { e with is_deleted := true } ∈ (delete_event st uid event_id).2.events) ∧
    (∀ sf, ∀ e2 ∈ get_my_events (delete_event st uid event_id).2 uid sf,
      e2.is_deleted = false ∧ e2.id ≠ event_id) ∧
    ((delete_round st uid round_id).1 = 200 ∧
      (delete_round st uid round_id).2.rounds =
        st.rounds.map (markRoundDeleted round_id) ∧
      (delete_round st uid round_id).2.events = st.events ∧
      { r with is_deleted := true } ∈ (delete_round st uid round_id).2.rounds) ∧
    (get_round (delete_round st uid round_id).2 uid round_id =
      (200, some { r with is_deleted := true })) := by
  have hde : delete_event st uid event_id =
      (200, { st with events := st.events.map (markEventDeleted event_id) }) := by
    simp [delete_event, hev, heown]
  have heid : (e.id == event_id) = true := by
    have := List.find?_some hev
    simpa using this
  have hemem : e ∈ st.events := List.mem_of_find?_eq_some hev
  have hdr : delete_round st uid round_id =
      (200, { st with rounds := st.rounds.map (markRoundDeleted round_id) }) := by
    simp [delete_round, hr, her, herown]
  have hrid : (r.id == round_id) = true := by
    have := List.find?_some hr
    simpa using this
  have hrmem : r ∈ st.rounds := List.mem_of_find?_eq_some hr
  refine ⟨⟨by rw [hde], by rw [hde], by rw [hde], ?_⟩, ?_, ⟨by rw [hdr], by rw [hdr],
    by rw [hdr], ?_⟩, ?_⟩
  · rw [hde]
    have : { e with is_deleted := true } = markEventDeleted event_id e := by
      simp [markEventDeleted, heid]
    rw [this]
    exact List.mem_map_of_mem _ hemem
  · intro sf e2 hmem
    have hbase : e2 ∈ (delete_event st uid event_id).2.events.filter
        (fun e3 => e3.user_id == uid && e3.is_deleted == false) := by
      unfold get_my_events at hmem
      cases sf with
      | none => exact hmem
      | some s => exact List.mem_of_mem_filter hmem
    have hpred := List.of_mem_filter hbase
    have hdel : e2.is_deleted = false := by
      simp only [Bool.and_eq_true, beq_iff_eq] at hpred
      exact hpred.2
    refine ⟨hdel, ?_⟩
    intro hid2
    have hmem2 : e2 ∈ (delete_event st uid event_id).2.events := List.mem_of_mem_filter hbase
    rw [hde] at hmem2
    obtain ⟨a, _, hfa⟩ := List.mem_map.mp hmem2
    unfold markEventDeleted at hfa
    by_cases ha : (a.id == event_id) = true
    · rw [if_pos ha] at hfa
      rw [← hfa] at hdel
      simp at hdel
    · rw [if_neg ha] at hfa
      rw [← hfa] at hid2
      rw [hid2] at ha
      simp at ha
  · rw [hdr]
    have : { r with is_deleted := true } = markRoundDeleted round_id r := by
      simp [markRoundDeleted, hrid]
    rw [this]
    exact List.mem_map_of_mem _ hrmem
  · rw [hdr]
    have hfind2 : (st.rounds.map (markRoundDeleted round_id)).find?
        (fun r2 => r2.id == round_id) = some { r with is_deleted := true } := by
      rw [find?_map_of_id_preserved st.rounds round_id _
        (fun r2 => by unfold markRoundDeleted; by_cases h : (r2.id == round_id) = true <;> simp [h]), hr]
      simp [markRoundDeleted, hrid]
    show get_round ⟨st.events, st.rounds.map (markRoundDeleted round_id),
      st.next_event_id, st.next_round_id⟩ uid round_id = _
    simp only [get_round, hfind2]
    have hev2 : ({ r with is_deleted := true } : Round).event_id = r.event_id := rfl
    rw [hev2, her]
    simp [herown]

/-- Witness for the amended C7: deleting an event and a round on a concrete
two-row state returns 200 for the delete and 200 for the subsequent
`GET /rounds/{id}` of the soft-deleted round. -/
theorem soft_delete_behavior_witness :
    (delete_event ⟨[⟨1, "E", 7, none, 0, "draft", none, false⟩],
      [⟨1, 1, none, 1, some "Round 1", 0, false⟩], 2, 2⟩ 7 1).1 = 200 ∧
    get_round (delete_round ⟨[⟨1, "E", 7, none, 0, "draft", none, false⟩],
      [⟨1, 1, none, 1, some "Round 1", 0, false⟩], 2, 2⟩ 7 1).2 7 1 =
      (200, some ⟨1, 1, none, 1, some "Round 1", 0, true⟩) := by
  obtain ⟨⟨h1, _, _, _⟩, _, _, h4⟩ := soft_delete_behavior
    ⟨[⟨1, "E", 7, none, 0, "draft", none, false⟩],
      [⟨1, 1, none, 1, some "Round 1", 0, false⟩], 2, 2⟩ 7 1 1
    ⟨1, "E", 7, none, 0, "draft", none, false⟩ ⟨1, "E", 7, none, 0, "draft", none, false⟩
    ⟨1, 1, none, 1, some "Round 1", 0, false⟩
    (by decide) rfl (by decide) (by decide) rfl
  exact ⟨h1, h4⟩

/-! ### Claim C10: update frame -/

/-- **C10.** A `POST /api/events` update of an existing owned event modifies
only the updatable fields whose keys are present in the request JSON (`name`,
`description`, `status`, `event_date`); each field absent from the request and
the event's `id`, `user_id`, `created_at` and `is_deleted` keep their prior
values, and every other row of storage is untouched. -/
theorem update_event_frame
    (st : EventsState) (uid event_id : Nat) (d : EventUpsertData) (now : Int) (e : Event)
    (hid : d.id = some event_id) (hid0 : event_id ≠ 0)
    (hname : ∀ nm, d.name = some nm → nm ≠ "")
    (hfind : st.events.find? (fun e2 => e2.id == event_id) = some e)
    (howner : e.user_id = uid) :
    (create_or_update_event st uid (some d) now).1 = 200 ∧
    (create_or_update_event st uid (some d) now).2.events =
      st.events.map (replaceEventRow e.id (applyEventUpdates d e)) ∧
    (create_or_update_event st uid (some d) now).2.rounds = st.rounds ∧
    (applyEventUpdates d e).name = (match d.name with | some nm => nm | none => e.name) ∧
    (applyEventUpdates d e).description =
      (match d.description with | some v => v | none => e.description) ∧
    (applyEventUpdates d e).status = (match d.status with | some v => v | none => e.status) ∧
    (applyEventUpdates d e).event_date =
      (match d.event_date with | some v => v | none => e.event_date) ∧
    (d.name = none → (applyEventUpdates d e).name = e.name) ∧
    (d.description = none → (applyEventUpdates d e).description = e.description) ∧
    (d.status = none → (applyEventUpdates d e).status = e.status) ∧
    (d.event_date = none → (applyEventUpdates d e).event_date = e.event_date) ∧
    (applyEventUpdates d e).id = e.id ∧
    (applyEventUpdates d e).user_id = e.user_id ∧
    (applyEventUpdates d e).created_at = e.created_at ∧
    (applyEventUpdates d e).is_deleted = e.is_deleted ∧
    (∀ e3 ∈ st.events, e3.id ≠ e.id →
      replaceEventRow e.id (applyEventUpdates d e) e3 = e3) := by
  have htr : pyTruthyNat d.id = true := by
    rw [hid]
    simp [pyTruthyNat, hid0]
  have hname_ok : (pyTruthyNat d.id && d.name.isSome && !pyTruthyStr d.name) = false := by
    cases hn : d.name with
    | none => simp
    | some nm =>
      have := hname nm hn
      simp [pyTruthyStr, this, hn]
  have hcheck1 : (!pyTruthyNat d.id && !pyTruthyStr d.name) = false := by simp [htr]
  have hgetd : d.id.getD 0 = event_id := by rw [hid]; rfl
  have hps : d.name.isSome = true → pyTruthyStr d.name = true := by
    intro h
    cases hn : d.name with
    | none => rw [hn] at h; cases h
    | some nm => simp [pyTruthyStr, hname nm hn]
  have hcue : create_or_update_event st uid (some d) now =
      (200,
        { st with events := st.events.map (replaceEventRow e.id (applyEventUpdates d e)) }) := by
    simp [create_or_update_event, hcheck1, hname_ok, htr, hgetd, hfind, howner]
    exact hps
  refine ⟨by rw [hcue], by rw [hcue], by rw [hcue], rfl, rfl, rfl, rfl,
    ?_, ?_, ?_, ?_, rfl, rfl, rfl, rfl, ?_⟩
  · intro h; simp [applyEventUpdates, h]
  · intro h; simp [applyEventUpdates, h]
  · intro h; simp [applyEventUpdates, h]
  · intro h; simp [applyEventUpdates, h]
  · intro e3 _ hne
    unfold replaceEventRow
    rw [if_neg (by simpa using hne)]

/-- Witness for C10: updating only the status of a stored event returns 200. -/
theorem update_event_frame_witness :
    (create_or_update_event ⟨[⟨1, "E", 7, none, 0, "draft", none, false⟩], [], 2, 1⟩ 7
      (some ⟨some 1, none, none, some "published", none⟩) 5).1 = 200 :=
  (update_event_frame ⟨[⟨1, "E", 7, none, 0, "draft", none, false⟩], [], 2, 1⟩ 7 1
    ⟨some 1, none, none, some "published", none⟩ 5 ⟨1, "E", 7, none, 0, "draft", none, false⟩
    rfl (by decide) (by intro nm h; cases h) (by decide) rfl).1

/-! ## Bulk-import category resolution
(`src/anki/import_misc.py` lines 8-47, `src/jeopardy/migrate_categories.py`
lines 7-30) -/

/-- The `categories` table: (id, name) rows plus the next serial id. -/
structure CategoriesState where
  rows : List (Nat × String)
  next_id : Nat := 1
deriving Repr, DecidableEq

/-- `get_or_create_category` of `src/anki/import_misc.py`: first the
in-process cache keyed by the lowercased name, then a case-insensitive SQL
lookup (`LOWER(name) = LOWER(%s)`), else an `INSERT`; hits and inserts are
cached. Returns (id, categories table, cache). -/
def anki_get_or_create_category (cats : CategoriesState) (cache : List (String × Nat))
    (category_name : String) : Nat × CategoriesState × List (String × Nat) :=
  match cache.lookup (pyLower category_name) with
  | some cid => (cid, cats, cache)
  | none =>
    match cats.rows.find? (fun c => pyLower c.2 == pyLower category_name) with
    | some c => (c.1, cats, (pyLower category_name, c.1) :: cache)
    | none =>
      (cats.next_id,
        ⟨cats.rows ++ [(cats.next_id, category_name)], cats.next_id + 1⟩,
        (pyLower category_name, cats.next_id) :: cache)

/-- `create_category` of `src/jeopardy/migrate_categories.py`: exact-match
SQL lookup (`name = %s`), else `INSERT`. -/
def create_category (cats : CategoriesState) (category_name : String) :
    Nat × CategoriesState :=
  match cats.rows.find? (fun c => c.2 == category_name) with
  | some c => (c.1, cats)
  | none =>
    (cats.next_id, ⟨cats.rows ++ [(cats.next_id, category_name)], cats.next_id + 1⟩)

/-- `get_or_create_category` of `src/jeopardy/migrate_categories.py`: a
per-run dictionary keyed by the exact name, falling back to
`create_category`. Returns (id, categories table, dictionary). -/
def jeopardy_get_or_create_category (cats : CategoriesState)
    (category_dict : List (String × Nat)) (category_name : String) :
    Nat × CategoriesState × List (String × Nat) :=
  match category_dict.lookup category_name with
  | some cid => (cid, cats, category_dict)
  | none =>
    ((create_category cats category_name).1, (create_category cats category_name).2,
      (category_name, (create_category cats category_name).1) :: category_dict)

/-! ### Claim C9 -/

/-- After an anki resolution the cache maps the lowercased name to the id just
returned. -/
theorem anki_cache_after (cats : CategoriesState) (cache : List (String × Nat))
    (name : String) :
    (anki_get_or_create_category cats cache name).2.2.lookup (pyLower name) =
      some (anki_get_or_create_category cats cache name).1 := by
  unfold anki_get_or_create_category
  cases h1 : cache.lookup (pyLower name) with
  | some cid => simp [h1]
  | none =>
    cases h2 : cats.rows.find? (fun c => pyLower c.2 == pyLower name) with
    | some c => simp [h1, h2, List.lookup]
    | none => simp [h1, h2, List.lookup]

/-- After a jeopardy resolution the dictionary maps the exact name to the id
just returned. -/
theorem jeopardy_dict_after (cats : CategoriesState) (dict : List (String × Nat))
    (name : String) :
    (jeopardy_get_or_create_category cats dict name).2.2.lookup name =
      some (jeopardy_get_or_create_category cats dict name).1 := by
  unfold jeopardy_get_or_create_category
  cases h1 : dict.lookup name with
  | some cid => simp [h1]
  | none => simp [h1, List.lookup]

/-- **C9 (counterexample).** The jeopardy bulk-import path is NOT
case-insensitive: with the category `"Science"` already stored (id 1), a call
for `"Science"` returns 1, but a second call for `"SCIENCE"` creates a second
row and returns the new id 2 — it neither returns the first call's id nor
leaves the table unchanged. -/
theorem category_case_sensitivity_counterexample :
    (jeopardy_get_or_create_category ⟨[(1, "Science")], 2⟩ [] "Science").1 = 1 ∧
    (jeopardy_get_or_create_category
      (jeopardy_get_or_create_category ⟨[(1, "Science")], 2⟩ [] "Science").2.1
      (jeopardy_get_or_create_category ⟨[(1, "Science")], 2⟩ [] "Science").2.2
      "SCIENCE").1 = 2 ∧
    (jeopardy_get_or_create_category
      (jeopardy_get_or_create_category ⟨[(1, "Science")], 2⟩ [] "Science").2.1
      (jeopardy_get_or_create_category ⟨[(1, "Science")], 2⟩ [] "Science").2.2
      "SCIENCE").2.1.rows = [(1, "Science"), (2, "SCIENCE")] := by
  refine ⟨rfl, ?_, ?_⟩ <;> decide

/-- **C9 (amended).** The anki bulk-import path is case-insensitively
idempotent: a second call with the same name in any letter casing returns the
first call's id, creates no row and leaves the cache as the first call left
it, creating the row only when no case-insensitive match exists. The jeopardy
migration path is idempotent only for the exact same name string (its
dictionary and SQL lookup are case-sensitive). -/
theorem get_or_create_category_idempotent
    (cats : CategoriesState) (cache dict : List (String × Nat)) (name1 name2 : String)
    (hcase : pyLower name2 = pyLower name1) :
    ((anki_get_or_create_category
        (anki_get_or_create_category cats cache name1).2.1
        (anki_get_or_create_category cats cache name1).2.2 name2) =
      ((anki_get_or_create_category cats cache name1).1,
        (anki_get_or_create_category cats cache name1).2.1,
        (anki_get_or_create_category cats cache name1).2.2)) ∧
    (cache.lookup (pyLower name1) = none →
      cats.rows.find? (fun c => pyLower c.2 == pyLower name1) = none →
      (anki_get_or_create_category cats cache name1).2.1.rows =
        cats.rows ++ [(cats.next_id, name1)]) ∧
    (∀ c0, cache.lookup (pyLower name1) = none →
      cats.rows.find? (fun c => pyLower c.2 == pyLower name1) = some c0 →
      (anki_get_or_create_category cats cache name1).2.1 = cats ∧
      (anki_get_or_create_category cats cache name1).1 = c0.1) ∧
    ((jeopardy_get_or_create_category
        (jeopardy_get_or_create_category cats dict name1).2.1
        (jeopardy_get_or_create_category cats dict name1).2.2 name1) =
      ((jeopardy_get_or_create_category cats dict name1).1,
        (jeopardy_get_or_create_category cats dict name1).2.1,
        (jeopardy_get_or_create_category cats dict name1).2.2)) := by
  refine ⟨?_, ?_, ?_, ?_⟩
  · have hc := anki_cache_after cats cache name1
    rw [show (anki_get_or_create_category
        (anki_get_or_create_category cats cache name1).2.1
        (anki_get_or_create_category cats cache name1).2.2 name2) =
      match (anki_get_or_create_category cats cache name1).2.2.lookup (pyLower name2) with
      | some cid => (cid, (anki_get_or_create_category cats cache name1).2.1,
          (anki_get_or_create_category cats cache name1).2.2)
      | none =>
        match (anki_get_or_create_category cats cache name1).2.1.rows.find?
            (fun c => pyLower c.2 == pyLower name2) with
        | some c => ((c.1 : Nat), (anki_get_or_create_category cats cache name1).2.1,
            (pyLower name2, c.1) :: (anki_get_or_create_category cats cache name1).2.2)
        | none => ((anki_get_or_create_category cats cache name1).2.1.next_id,
            ⟨(anki_get_or_create_category cats cache name1).2.1.rows ++
              [((anki_get_or_create_category cats cache name1).2.1.next_id, name2)],
              (anki_get_or_create_category cats cache name1).2.1.next_id + 1⟩,
            (pyLower name2, (anki_get_or_create_category cats cache name1).2.1.next_id) ::
              (anki_get_or_create_category cats cache name1).2.2) from rfl]
    rw [hcase, hc]
  · intro h1 h2
    simp [anki_get_or_create_category, h1, h2]
  · intro c0 h1 h2
    constructor <;> simp [anki_get_or_create_category, h1, h2]
  · have hd := jeopardy_dict_after cats dict name1
    rw [show (jeopardy_get_or_create_category
        (jeopardy_get_or_create_category cats dict name1).2.1
        (jeopardy_get_or_create_category cats dict name1).2.2 name1) =
      match (jeopardy_get_or_create_category cats dict name1).2.2.lookup name1 with
      | some cid => (cid, (jeopardy_get_or_create_category cats dict name1).2.1,
          (jeopardy_get_or_create_category cats dict name1).2.2)
      | none =>
        ((create_category (jeopardy_get_or_create_category cats dict name1).2.1 name1).1,
          (create_category (jeopardy_get_or_create_category cats dict name1).2.1 name1).2,
          (name1, (create_category (jeopardy_get_or_create_category cats dict name1).2.1
            name1).1) :: (jeopardy_get_or_create_category cats dict name1).2.2) from rfl]
    rw [hd]

/-- Witness for the amended C9: with `"Science"` stored, the anki path resolves
`"SCIENCE"` and then `"science"` to the same id 1 without touching the table. -/
theorem get_or_create_category_idempotent_witness :
    (anki_get_or_create_category
      (anki_get_or_create_category ⟨[(1, "Science")], 2⟩ [] "SCIENCE").2.1
      (anki_get_or_create_category ⟨[(1, "Science")], 2⟩ [] "SCIENCE").2.2 "science") =
      ((anki_get_or_create_category ⟨[(1, "Science")], 2⟩ [] "SCIENCE").1,
        (anki_get_or_create_category ⟨[(1, "Science")], 2⟩ [] "SCIENCE").2.1,
        (anki_get_or_create_category ⟨[(1, "Science")], 2⟩ [] "SCIENCE").2.2) :=
  (get_or_create_category_idempotent ⟨[(1, "Science")], 2⟩ [] [] "SCIENCE" "science"
    (by decide)).1

end TriviaApp
